import Mathlib

/-!
Shallow embedding of `custom_components/bestway/bestway/api.py` (the status
decoding, caching and command logic of the Bestway integration).

Attribute payloads arriving from the cloud API are JSON objects whose values
may be booleans, integers or strings; they are modelled as association lists
of `PyVal`.  The data classes `BestwaySpaDeviceStatus`,
`BestwaySpaDeviceV01Status` and `BestwayPoolFilterDeviceStatus` live in
`model.py`, which only declares their fields; their field names and contents
are fixed by the constructor calls and attribute mutations in `api.py`
together with the spec's data model (§3), and both spa status classes share
one field layout, so they are modelled by a single `SpaStatus` structure.

Timestamps are `updated_at` epoch seconds from the server, or `int(time())`
for local command writes; both are non-negative, so they are modelled as
`Nat`.
-/

set_option autoImplicit false

namespace Bestway

/-- A JSON attribute value as manipulated by the Python code: a bool, an
integer or a string. -/
inductive PyVal where
  | bool : Bool → PyVal
  | int : Int → PyVal
  | str : String → PyVal
  deriving DecidableEq, Repr

/-- A raw attribute payload (the `attr` object of a poll response). -/
abbrev Attrs := List (String × PyVal)

/-- First value stored under a key, mirroring Python `dict` lookup. -/
def lookupKey {α : Type} : List (String × α) → String → Option α
  | [], _ => none
  | (k, v) :: rest, q => if k = q then some v else lookupKey rest q

/-- Store a value under a key, mirroring Python `dict` assignment: replace the
existing entry or append a new one. -/
def setKey {α : Type} (q : String) (v : α) : List (String × α) → List (String × α)
  | [] => [(q, v)]
  | (k, w) :: rest => if k = q then (q, v) :: rest else (k, w) :: setKey q v rest

/-- A failure while decoding a device payload: `missingKey` is Python's
`KeyError` (caught inside `fetch_data`), `typeError` is Python's `TypeError`
from an order comparison on a non-numeric value (not caught). -/
inductive DecodeErr where
  | missingKey : String → DecodeErr
  | typeError : DecodeErr
  deriving DecidableEq, Repr

/-- `device_attrs[k]`: the value, or a `KeyError` when the key is absent. -/
def getAttr (attrs : Attrs) (k : String) : Except DecodeErr PyVal :=
  match lookupKey attrs k with
  | some v => .ok v
  | none => .error (.missingKey k)

/-- Numeric view of a value: Python treats `True`/`False` as `1`/`0` in
arithmetic comparisons; strings are not numeric. -/
def pyToIntNum : PyVal → Option Int
  | .bool b => some (if b then 1 else 0)
  | .int n => some n
  | .str _ => none

/-- Python `v == n` for an integer literal `n`: never a type error, a string
simply compares unequal. -/
def pyEqInt (v : PyVal) (n : Int) : Bool :=
  match pyToIntNum v with
  | some m => m = n
  | none => false

/-- Python `v == s` for a string literal `s`. -/
def pyEqStr (v : PyVal) (s : String) : Bool :=
  match v with
  | .str t => t = s
  | _ => false

/-- Python `v != n` for an integer literal `n`. -/
def pyNeInt (v : PyVal) (n : Int) : Bool :=
  match pyToIntNum v with
  | some m => m ≠ n
  | none => true

/-- Python `v > n` for an integer literal `n`: a `TypeError` when `v` is a
string. -/
def pyGtLit (v : PyVal) (n : Int) : Except DecodeErr Bool :=
  match pyToIntNum v with
  | some m => .ok (decide (n < m))
  | none => .error .typeError

/-- Python `v >= w`: numeric comparison with bools as `1`/`0`, lexicographic
between two strings, a `TypeError` between a string and a number. -/
def pyGe (v w : PyVal) : Except DecodeErr Bool :=
  match v, w with
  | .str a, .str b => .ok (decide (b ≤ a))
  | v, w =>
    match pyToIntNum v, pyToIntNum w with
    | some a, some b => .ok (decide (b ≤ a))
    | _, _ => .error .typeError

/-- Temperature unit enumeration from `model.py` (spec §3). -/
inductive TemperatureUnit where
  | celsius
  | fahrenheit
  deriving DecidableEq, Repr

/-- Spa status record.  `Modelled from the spec:` the data classes
`BestwaySpaDeviceStatus` and `BestwaySpaDeviceV01Status` are declared in
`model.py`, which is not part of the decoding source; their fields are those
listed in spec §3 and used positionally and by name in `api.py`.  Fields that
only ever receive the result of a boolean expression are `Bool`; fields that
receive a raw attribute value in at least one code path are `PyVal`. -/
structure SpaStatus where
  timestamp : Nat
  spa_power : PyVal
  temp_now : PyVal
  temp_set : PyVal
  temp_set_unit : TemperatureUnit
  heat_power : Bool
  heat_temp_reach : Bool
  filter_power : Bool
  wave_power : PyVal
  locked : PyVal
  errors : List Nat
  earth : PyVal
  deriving DecidableEq, Repr

/-- Pool filter status record.  `Modelled from the spec:` the data class
`BestwayPoolFilterDeviceStatus` is declared in `model.py`; fields from spec §3
and the constructor call and mutations in `api.py`. -/
structure PoolFilterStatus where
  timestamp : Nat
  filter : Bool
  power : Bool
  time : PyVal
  status : Bool
  error : Bool
  deriving DecidableEq, Repr

/-- Device type tag, the closed enumeration dispatched on in `fetch_data`. -/
inductive BestwayDeviceType where
  | airjet_spa
  | airjet_v01
  | pool_filter
  | unknown
  deriving DecidableEq, Repr

/-- Key name `f"system_err{n}"` of a current-firmware error flag. -/
def errKeyCurrent (n : Nat) : String :=
  "system_err" ++ toString n

/-- Key name of a legacy-firmware error flag: `f"E0{n}"` for `n < 10`,
`f"E{n}"` otherwise. -/
def errKeyLegacy (n : Nat) : String :=
  if n < 10 then "E0" ++ toString n else "E" ++ toString n

/-- The error-flag loop shared by both spa decoders: walk the error numbers in
order, look each flag up (a missing key is a `KeyError`, exactly as in the
Python `device_attrs[...]` indexing) and collect the numbers whose flag
compares equal to `1`. -/
def scanErrorFlags (key : Nat → String) (attrs : Attrs) :
    List Nat → Except DecodeErr (List Nat)
  | [] => .ok []
  | n :: rest => do
    let v ← getAttr attrs (key n)
    let tail ← scanErrorFlags key attrs rest
    return if pyEqInt v 1 then n :: tail else tail

/-- `for err_num in range(1, 10)` over `system_err{n}` flags. -/
def currentErrors (attrs : Attrs) : Except DecodeErr (List Nat) :=
  scanErrorFlags errKeyCurrent attrs (List.range' 1 9)

/-- `for err_num in range(1, 32)` over `E0{n}` / `E{n}` flags. -/
def legacyErrors (attrs : Attrs) : Except DecodeErr (List Nat) :=
  scanErrorFlags errKeyLegacy attrs (List.range' 1 31)

/-- Decoding of an `AIRJET_SPA` payload (`fetch_data`, current firmware
branch): the error loop runs first, then the `BestwaySpaDeviceStatus`
constructor arguments are evaluated in order. -/
def decodeSpaCurrent (ts : Nat) (attrs : Attrs) : Except DecodeErr SpaStatus := do
  let errors ← currentErrors attrs
  let power ← getAttr attrs "power"
  let temp_now ← getAttr attrs "temp_now"
  let temp_set ← getAttr attrs "temp_set"
  let unit_v ← getAttr attrs "temp_set_unit"
  let heat_v ← getAttr attrs "heat_power"
  let reach_v ← getAttr attrs "heat_temp_reach"
  let filter_v ← getAttr attrs "filter_power"
  let wave_v ← getAttr attrs "wave_power"
  let locked_v ← getAttr attrs "locked"
  let earth_v ← getAttr attrs "earth"
  return { timestamp := ts
           spa_power := power
           temp_now := temp_now
           temp_set := temp_set
           temp_set_unit :=
             if pyEqStr unit_v "摄氏" then .celsius else .fahrenheit
           heat_power := pyEqInt heat_v 1
           heat_temp_reach := pyEqInt reach_v 1
           filter_power := pyEqInt filter_v 1
           wave_power := PyVal.bool (pyEqInt wave_v 1)
           locked := PyVal.bool (pyEqInt locked_v 1)
           errors := errors
           earth := PyVal.bool (pyEqInt earth_v 1) }

/-- Decoding of an `Airjet_V01` payload (`fetch_data`, legacy firmware
branch): error loop first, then the `BestwaySpaDeviceV01Status` constructor
arguments in order; `heat` and `filter` are compared with `> 0`,
heater-reached is computed as `Tnow >= Tset`, `wave` is stored raw, and the
`locked` and `earth` arguments are the literal `0`. -/
def decodeSpaLegacy (ts : Nat) (attrs : Attrs) : Except DecodeErr SpaStatus := do
  let errors ← legacyErrors attrs
  let power ← getAttr attrs "power"
  let tnow ← getAttr attrs "Tnow"
  let tset ← getAttr attrs "Tset"
  let tunit ← getAttr attrs "Tunit"
  let heat_v ← getAttr attrs "heat"
  let heat_b ← pyGtLit heat_v 0
  let reach_b ← pyGe tnow tset
  let filter_v ← getAttr attrs "filter"
  let filter_b ← pyGtLit filter_v 0
  let wave ← getAttr attrs "wave"
  return { timestamp := ts
           spa_power := power
           temp_now := tnow
           temp_set := tset
           temp_set_unit :=
             if pyEqInt tunit 1 then .celsius else .fahrenheit
           heat_power := heat_b
           heat_temp_reach := reach_b
           filter_power := filter_b
           wave_power := wave
           locked := PyVal.int 0
           errors := errors
           earth := PyVal.int 0 }

/-- Decoding of a `POOL_FILTER` payload (`fetch_data`, pool filter branch). -/
def decodePoolFilter (ts : Nat) (attrs : Attrs) :
    Except DecodeErr PoolFilterStatus := do
  let filter_v ← getAttr attrs "filter"
  let power_v ← getAttr attrs "power"
  let time_v ← getAttr attrs "time"
  let status_v ← getAttr attrs "status"
  let error_v ← getAttr attrs "error"
  return { timestamp := ts
           filter := pyEqInt filter_v 1
           power := pyEqInt power_v 1
           time := time_v
           status := pyEqStr status_v "运行中"
           error := pyNeInt error_v 0 }

/-- The mutable caches owned by a `BestwayApi` instance: `_spa_state_cache`,
`_pool_filter_state_cache` and `_unknown_states`.  The unknown-state value is
`json.dumps(device_attrs)` in the source, a pure injective function of the
attribute payload alone; serialization is modelled by storing the payload
itself. -/
structure ApiState where
  spaCache : List (String × SpaStatus)
  poolCache : List (String × PoolFilterStatus)
  unknownStates : List (String × Attrs)
  deriving DecidableEq, Repr

/-- The empty caches of a freshly constructed `BestwayApi`. -/
def initialState : ApiState :=
  { spaCache := [], poolCache := [], unknownStates := [] }

/-- The locally cached timestamp consulted by `fetch_data`'s freshness check:
the spa cache first, then the pool filter cache, else `0`.  The unknown-state
store is never consulted. -/
def localTimestamp (st : ApiState) (did : String) : Nat :=
  match lookupKey st.spaCache did with
  | some s => s.timestamp
  | none =>
    match lookupKey st.poolCache did with
    | some p => p.timestamp
    | none => 0

/-- One iteration of the `fetch_data` loop for device `did` whose poll
response carried `updated_at = ts` and `attr = attrs`:

* `ts = 0` is the offline sentinel — skip the device;
* `ts < localTimestamp` — skip the device as stale;
* otherwise decode by device type and store the result; a `KeyError`
  (`DecodeErr.missingKey`) is caught and leaves the caches untouched, while a
  `TypeError` propagates (the `except` clause only catches `KeyError`). -/
def fetchDevice (st : ApiState) (did : String) (dtype : BestwayDeviceType)
    (ts : Nat) (attrs : Attrs) : Except DecodeErr ApiState :=
  if ts = 0 then .ok st
  else if ts < localTimestamp st did then .ok st
  else
    match dtype with
    | .airjet_spa =>
      match decodeSpaCurrent ts attrs with
      | .ok s => .ok { st with spaCache := setKey did s st.spaCache }
      | .error (.missingKey _) => .ok st
      | .error .typeError => .error .typeError
    | .airjet_v01 =>
      match decodeSpaLegacy ts attrs with
      | .ok s => .ok { st with spaCache := setKey did s st.spaCache }
      | .error (.missingKey _) => .ok st
      | .error .typeError => .error .typeError
    | .pool_filter =>
      match decodePoolFilter ts attrs with
      | .ok p => .ok { st with poolCache := setKey did p st.poolCache }
      | .error (.missingKey _) => .ok st
      | .error .typeError => .error .typeError
    | .unknown =>
      .ok { st with unknownStates := setKey did attrs st.unknownStates }

/-- `fetch_data`: iterate `fetchDevice` over the bound devices, each given as
`(device id, device type, updated_at, attrs)`, threading the caches. -/
def fetch_data (st : ApiState) :
    List (String × BestwayDeviceType × Nat × Attrs) → Except DecodeErr ApiState
  | [] => .ok st
  | (did, dtype, ts, attrs) :: rest => do
    let st2 ← fetchDevice st did dtype ts attrs
    fetch_data st2 rest

/-- Outcome of `_raise_for_status` on a failed `_do_post`: the recognised
Bestway error codes, or an undifferentiated transport failure. -/
inductive PostError where
  | tokenInvalid
  | userDoesNotExist
  | offline
  | incorrectPassword
  | transport
  deriving DecidableEq, Repr

/-- An exception surfaced by a command method: the `BestwayException` raised
when the device has no cached state, or the error raised by the network
round-trip. -/
inductive CommandError where
  | deviceNotRecognised
  | post : PostError → CommandError
  deriving DecidableEq, Repr

/-- `spa_set_power`: look up the cached state (error when absent), perform the
POST (`post` is its outcome; an error propagates before any mutation), then
stamp the timestamp with the wall clock and apply the primary and derived
mutations. -/
def spa_set_power (st : ApiState) (did : String) (power : Bool)
    (post : Except PostError Unit) (now : Nat) : ApiState × Option CommandError :=
  match lookupKey st.spaCache did with
  | none => (st, some .deviceNotRecognised)
  | some cached =>
    match post with
    | .error e => (st, some (.post e))
    | .ok _ =>
      let c := { cached with timestamp := now, spa_power := PyVal.bool power }
      let c :=
        if power then c
        else { c with filter_power := false, heat_power := false
                      wave_power := PyVal.bool false }
      ({ st with spaCache := setKey did c st.spaCache }, none)

/-- `spa_set_heat`: heating on also turns on the spa and the filter pump. -/
def spa_set_heat (st : ApiState) (did : String) (heat : Bool)
    (post : Except PostError Unit) (now : Nat) : ApiState × Option CommandError :=
  match lookupKey st.spaCache did with
  | none => (st, some .deviceNotRecognised)
  | some cached =>
    match post with
    | .error e => (st, some (.post e))
    | .ok _ =>
      let c := { cached with timestamp := now, heat_power := heat }
      let c :=
        if heat then { c with spa_power := PyVal.bool true, filter_power := true }
        else c
      ({ st with spaCache := setKey did c st.spaCache }, none)

/-- `spa_set_filter`: filtering on also powers the spa on; filtering off also
turns off the bubbles and the heater. -/
def spa_set_filter (st : ApiState) (did : String) (filtering : Bool)
    (post : Except PostError Unit) (now : Nat) : ApiState × Option CommandError :=
  match lookupKey st.spaCache did with
  | none => (st, some .deviceNotRecognised)
  | some cached =>
    match post with
    | .error e => (st, some (.post e))
    | .ok _ =>
      let c := { cached with timestamp := now, filter_power := filtering }
      let c :=
        if filtering then { c with spa_power := PyVal.bool true }
        else { c with wave_power := PyVal.bool false, heat_power := false }
      ({ st with spaCache := setKey did c st.spaCache }, none)

/-- `spa_set_locked`: no derived effects. -/
def spa_set_locked (st : ApiState) (did : String) (locked : Bool)
    (post : Except PostError Unit) (now : Nat) : ApiState × Option CommandError :=
  match lookupKey st.spaCache did with
  | none => (st, some .deviceNotRecognised)
  | some cached =>
    match post with
    | .error e => (st, some (.post e))
    | .ok _ =>
      let c := { cached with timestamp := now, locked := PyVal.bool locked }
      ({ st with spaCache := setKey did c st.spaCache }, none)

/-- `spa_set_bubbles`: bubbles on also powers the spa on. -/
def spa_set_bubbles (st : ApiState) (did : String) (bubbles : Bool)
    (post : Except PostError Unit) (now : Nat) : ApiState × Option CommandError :=
  match lookupKey st.spaCache did with
  | none => (st, some .deviceNotRecognised)
  | some cached =>
    match post with
    | .error e => (st, some (.post e))
    | .ok _ =>
      let c := { cached with timestamp := now, wave_power := PyVal.bool bubbles }
      let c :=
        if bubbles then { c with spa_power := PyVal.bool true } else c
      ({ st with spaCache := setKey did c st.spaCache }, none)

/-- `spa_set_target_temp`: no derived effects. -/
def spa_set_target_temp (st : ApiState) (did : String) (target_temp : Int)
    (post : Except PostError Unit) (now : Nat) : ApiState × Option CommandError :=
  match lookupKey st.spaCache did with
  | none => (st, some .deviceNotRecognised)
  | some cached =>
    match post with
    | .error e => (st, some (.post e))
    | .ok _ =>
      let c := { cached with timestamp := now, temp_set := PyVal.int target_temp }
      ({ st with spaCache := setKey did c st.spaCache }, none)

/-- `pool_filter_set_power`: no derived effects. -/
def pool_filter_set_power (st : ApiState) (did : String) (power : Bool)
    (post : Except PostError Unit) (now : Nat) : ApiState × Option CommandError :=
  match lookupKey st.poolCache did with
  | none => (st, some .deviceNotRecognised)
  | some cached =>
    match post with
    | .error e => (st, some (.post e))
    | .ok _ =>
      let c := { cached with timestamp := now, power := power }
      ({ st with poolCache := setKey did c st.poolCache }, none)

/-- `pool_filter_set_time`: no derived effects. -/
def pool_filter_set_time (st : ApiState) (did : String) (hours : Int)
    (post : Except PostError Unit) (now : Nat) : ApiState × Option CommandError :=
  match lookupKey st.poolCache did with
  | none => (st, some .deviceNotRecognised)
  | some cached =>
    match post with
    | .error e => (st, some (.post e))
    | .ok _ =>
      let c := { cached with timestamp := now, time := PyVal.int hours }
      ({ st with poolCache := setKey did c st.poolCache }, none)

/-! ## Basic lemmas about the embedding's building blocks -/

theorem except_bind_ok {ε α β : Type} (a : α) (f : α → Except ε β) :
    (Except.ok a >>= f) = f a := rfl

theorem except_bind_error {ε α β : Type} (e : ε) (f : α → Except ε β) :
    ((Except.error e : Except ε α) >>= f) = Except.error e := rfl

theorem except_ok_of_bind_ok {ε α β : Type} {x : Except ε α} {f : α → Except ε β}
    {b : β} (h : (x >>= f) = .ok b) : ∃ a, x = .ok a ∧ f a = .ok b := by
  cases x with
  | error e => rw [except_bind_error] at h; cases h
  | ok a => exact ⟨a, rfl, h⟩

theorem lookupKey_setKey_self {α : Type} (l : List (String × α)) (q : String) (v : α) :
    lookupKey (setKey q v l) q = some v := by
  induction l with
  | nil => simp [setKey, lookupKey]
  | cons kv rest ih =>
    obtain ⟨k, w⟩ := kv
    by_cases h : k = q <;> simp [setKey, lookupKey, h, ih]

/-- A successful error-flag scan returns a sublist of the scanned numbers. -/
theorem scanErrorFlags_sublist {key : Nat → String} {attrs : Attrs} :
    ∀ {l res : List Nat}, scanErrorFlags key attrs l = .ok res → res.Sublist l := by
  intro l
  induction l with
  | nil =>
    intro res h
    unfold scanErrorFlags at h
    cases h
    exact List.Sublist.refl []
  | cons n rest ih =>
    intro res h
    unfold scanErrorFlags at h
    obtain ⟨v, hv, h⟩ := except_ok_of_bind_ok h
    obtain ⟨tail, htail, h⟩ := except_ok_of_bind_ok h
    cases h
    by_cases hp : pyEqInt v 1 = true
    · simpa [hp] using List.Sublist.cons₂ n (ih htail)
    · simpa [hp] using List.Sublist.cons n (ih htail)

/-- A successful error-flag scan saw every scanned flag key. -/
theorem scanErrorFlags_keys {key : Nat → String} {attrs : Attrs} :
    ∀ {l res : List Nat}, scanErrorFlags key attrs l = .ok res →
      ∀ n ∈ l, (lookupKey attrs (key n)).isSome := by
  intro l
  induction l with
  | nil => intro res _ n hn; cases hn
  | cons m rest ih =>
    intro res h n hn
    unfold scanErrorFlags at h
    obtain ⟨v, hv, h⟩ := except_ok_of_bind_ok h
    obtain ⟨tail, htail, h⟩ := except_ok_of_bind_ok h
    rcases List.mem_cons.mp hn with rfl | hn
    · unfold getAttr at hv
      cases hl : lookupKey attrs (key n) with
      | none => rw [hl] at hv; cases hv
      | some w => simp
    · exact ih htail n hn

/-- Membership in a successful error-flag scan: exactly the scanned numbers
whose flag value compares equal to `1`. -/
theorem scanErrorFlags_mem_iff {key : Nat → String} {attrs : Attrs} :
    ∀ {l res : List Nat}, scanErrorFlags key attrs l = .ok res →
      ∀ n, n ∈ res ↔ n ∈ l ∧
        ∃ v, lookupKey attrs (key n) = some v ∧ pyEqInt v 1 = true := by
  intro l
  induction l with
  | nil =>
    intro res h n
    unfold scanErrorFlags at h
    cases h
    simp
  | cons m rest ih =>
    intro res h n
    unfold scanErrorFlags at h
    obtain ⟨v, hv, h⟩ := except_ok_of_bind_ok h
    obtain ⟨tail, htail, h⟩ := except_ok_of_bind_ok h
    cases h
    unfold getAttr at hv
    have hvl : lookupKey attrs (key m) = some v := by
      cases hl : lookupKey attrs (key m) with
      | none => rw [hl] at hv; cases hv
      | some w => rw [hl] at hv; cases hv; rfl
    constructor
    · intro hmem
      by_cases hp : pyEqInt v 1 = true
      · rw [if_pos hp] at hmem
        rcases List.mem_cons.mp hmem with rfl | hmem
        · exact ⟨List.mem_cons_self _ _, v, hvl, hp⟩
        · obtain ⟨hl, hw⟩ := (ih htail n).mp hmem
          exact ⟨List.mem_cons_of_mem m hl, hw⟩
      · rw [if_neg hp] at hmem
        obtain ⟨hl, hw⟩ := (ih htail n).mp hmem
        exact ⟨List.mem_cons_of_mem m hl, hw⟩
    · rintro ⟨hl, w, hwl, hw⟩
      rcases List.mem_cons.mp hl with rfl | hl
      · rw [hvl] at hwl
        cases hwl
        rw [if_pos hw]
        exact List.mem_cons_self n _
      · have : n ∈ tail := (ih htail n).mpr ⟨hl, w, hwl, hw⟩
        by_cases hp : pyEqInt v 1 = true
        · rw [if_pos hp]; exact List.mem_cons_of_mem m this
        · rw [if_neg hp]; exact this

/-- Inversion of a successful current-firmware spa decode: the status carries
the poll timestamp and its error list is the error loop's result. -/
theorem decodeSpaCurrent_ok_inv {ts : Nat} {attrs : Attrs} {s : SpaStatus}
    (h : decodeSpaCurrent ts attrs = .ok s) :
    s.timestamp = ts ∧ currentErrors attrs = .ok s.errors := by
  unfold decodeSpaCurrent at h
  obtain ⟨errs, herrs, h⟩ := except_ok_of_bind_ok h
  obtain ⟨power, _, h⟩ := except_ok_of_bind_ok h
  obtain ⟨temp_now, _, h⟩ := except_ok_of_bind_ok h
  obtain ⟨temp_set, _, h⟩ := except_ok_of_bind_ok h
  obtain ⟨unit_v, _, h⟩ := except_ok_of_bind_ok h
  obtain ⟨heat_v, _, h⟩ := except_ok_of_bind_ok h
  obtain ⟨reach_v, _, h⟩ := except_ok_of_bind_ok h
  obtain ⟨filter_v, _, h⟩ := except_ok_of_bind_ok h
  obtain ⟨wave_v, _, h⟩ := except_ok_of_bind_ok h
  obtain ⟨locked_v, _, h⟩ := except_ok_of_bind_ok h
  obtain ⟨earth_v, _, h⟩ := except_ok_of_bind_ok h
  cases h
  exact ⟨rfl, herrs⟩

/-- Inversion of a successful legacy spa decode. -/
theorem decodeSpaLegacy_ok_inv {ts : Nat} {attrs : Attrs} {s : SpaStatus}
    (h : decodeSpaLegacy ts attrs = .ok s) :
    s.timestamp = ts ∧ legacyErrors attrs = .ok s.errors := by
  unfold decodeSpaLegacy at h
  obtain ⟨errs, herrs, h⟩ := except_ok_of_bind_ok h
  obtain ⟨power, _, h⟩ := except_ok_of_bind_ok h
  obtain ⟨tnow, _, h⟩ := except_ok_of_bind_ok h
  obtain ⟨tset, _, h⟩ := except_ok_of_bind_ok h
  obtain ⟨tunit, _, h⟩ := except_ok_of_bind_ok h
  obtain ⟨heat_v, _, h⟩ := except_ok_of_bind_ok h
  obtain ⟨heat_b, _, h⟩ := except_ok_of_bind_ok h
  obtain ⟨reach_b, _, h⟩ := except_ok_of_bind_ok h
  obtain ⟨filter_v, _, h⟩ := except_ok_of_bind_ok h
  obtain ⟨filter_b, _, h⟩ := except_ok_of_bind_ok h
  obtain ⟨wave, _, h⟩ := except_ok_of_bind_ok h
  cases h
  exact ⟨rfl, herrs⟩

/-- Inversion of a successful pool filter decode. -/
theorem decodePoolFilter_ok_inv {ts : Nat} {attrs : Attrs} {p : PoolFilterStatus}
    (h : decodePoolFilter ts attrs = .ok p) : p.timestamp = ts := by
  unfold decodePoolFilter at h
  obtain ⟨filter_v, _, h⟩ := except_ok_of_bind_ok h
  obtain ⟨power_v, _, h⟩ := except_ok_of_bind_ok h
  obtain ⟨time_v, _, h⟩ := except_ok_of_bind_ok h
  obtain ⟨status_v, _, h⟩ := except_ok_of_bind_ok h
  obtain ⟨error_v, _, h⟩ := except_ok_of_bind_ok h
  cases h
  rfl

/-! ## Concrete fixtures -/

/-- A complete current-firmware spa payload apart from the error flags. -/
def currentBaseAttrs : Attrs :=
  [("power", PyVal.int 1), ("temp_now", PyVal.int 30), ("temp_set", PyVal.int 38),
   ("temp_set_unit", PyVal.str "摄氏"), ("heat_power", PyVal.int 1),
   ("heat_temp_reach", PyVal.int 0), ("filter_power", PyVal.int 1),
   ("wave_power", PyVal.int 0), ("locked", PyVal.int 0), ("earth", PyVal.int 0)]

/-- A complete current-firmware spa payload with error flag `n` set to `f n`. -/
def currentAttrsWith (f : Nat → Int) : Attrs :=
  ((List.range' 1 9).map fun n => (errKeyCurrent n, PyVal.int (f n))) ++ currentBaseAttrs

/-- A complete legacy spa payload apart from the error flags. -/
def legacyBaseAttrs : Attrs :=
  [("power", PyVal.int 1), ("Tnow", PyVal.int 30), ("Tset", PyVal.int 38),
   ("Tunit", PyVal.int 1), ("heat", PyVal.int 1), ("filter", PyVal.int 1),
   ("wave", PyVal.int 0)]

/-- A complete legacy spa payload with error flag `n` set to `f n`. -/
def legacyAttrsWith (f : Nat → Int) : Attrs :=
  ((List.range' 1 31).map fun n => (errKeyLegacy n, PyVal.int (f n))) ++ legacyBaseAttrs

/-- A complete pool filter payload. -/
def poolAttrs : Attrs :=
  [("filter", PyVal.int 1), ("power", PyVal.int 1), ("time", PyVal.int 6),
   ("status", PyVal.str "运行中"), ("error", PyVal.int 0)]

/-- A cached spa record with timestamp `100`. -/
def spa100 : SpaStatus :=
  { timestamp := 100, spa_power := PyVal.int 1, temp_now := PyVal.int 30
    temp_set := PyVal.int 38, temp_set_unit := .celsius, heat_power := true
    heat_temp_reach := false, filter_power := true, wave_power := PyVal.bool true
    locked := PyVal.bool false, errors := [], earth := PyVal.bool false }

/-- A cached pool filter record with timestamp `100`. -/
def pool100 : PoolFilterStatus :=
  { timestamp := 100, filter := true, power := true, time := PyVal.int 6
    status := true, error := false }

/-- A cache holding one spa device `d`. -/
def stSpa : ApiState :=
  { spaCache := [("d", spa100)], poolCache := [], unknownStates := [] }

/-- A cache holding one pool filter device `p`. -/
def stPool : ApiState :=
  { spaCache := [], poolCache := [("p", pool100)], unknownStates := [] }

/-- The decode of `currentAttrsWith` error flag 3 at timestamp 150. -/
def spaErr3 : SpaStatus :=
  { timestamp := 150, spa_power := PyVal.int 1, temp_now := PyVal.int 30
    temp_set := PyVal.int 38, temp_set_unit := .celsius, heat_power := true
    heat_temp_reach := false, filter_power := true, wave_power := PyVal.bool false
    locked := PyVal.bool false, errors := [3], earth := PyVal.bool false }

/-- The decode of `currentAttrsWith` error flags 1 and 9 at timestamp 100. -/
def spaErr19 : SpaStatus :=
  { timestamp := 100, spa_power := PyVal.int 1, temp_now := PyVal.int 30
    temp_set := PyVal.int 38, temp_set_unit := .celsius, heat_power := true
    heat_temp_reach := false, filter_power := true, wave_power := PyVal.bool false
    locked := PyVal.bool false, errors := [1, 9], earth := PyVal.bool false }

/-- The decode of the all-flags-zero legacy payload at timestamp 150. -/
def spaLegacy150 : SpaStatus :=
  { timestamp := 150, spa_power := PyVal.int 1, temp_now := PyVal.int 30
    temp_set := PyVal.int 38, temp_set_unit := .celsius, heat_power := true
    heat_temp_reach := false, filter_power := true, wave_power := PyVal.int 0
    locked := PyVal.int 0, errors := [], earth := PyVal.int 0 }

/-- The decode of the legacy payload with flag 5 active at timestamp 100. -/
def spaLegacyE05 : SpaStatus :=
  { timestamp := 100, spa_power := PyVal.int 1, temp_now := PyVal.int 30
    temp_set := PyVal.int 38, temp_set_unit := .celsius, heat_power := true
    heat_temp_reach := false, filter_power := true, wave_power := PyVal.int 0
    locked := PyVal.int 0, errors := [5], earth := PyVal.int 0 }

/-- The decode of `poolAttrs` at timestamp 150. -/
def pool150 : PoolFilterStatus :=
  { timestamp := 150, filter := true, power := true, time := PyVal.int 6
    status := true, error := false }

/-! ## The claims -/

/-- C4: for every device, a poll response whose `updated_at` timestamp is
exactly `0` (the offline sentinel) never changes the cached state: the device
is skipped with every cache left untouched, and the poll cycle continues with
the remaining devices, so a subsequent read returns the previously cached
record, if any, unchanged. -/
theorem c4_offline_sentinel_is_noop (st : ApiState) (did : String)
    (dtype : BestwayDeviceType) (attrs : Attrs)
    (rest : List (String × BestwayDeviceType × Nat × Attrs)) :
    fetchDevice st did dtype 0 attrs = .ok st ∧
    fetch_data st ((did, dtype, 0, attrs) :: rest) = fetch_data st rest :=
  ⟨rfl, rfl⟩

/-- C2: for every command operation (spa power, heat, filter, lock, bubbles,
target temperature; pool filter power, run duration), a failed upstream POST
surfaces before any cache mutation: the state returned alongside the error is
the original state, so the cached record — including its timestamp — is
preserved unchanged. -/
theorem c2_failed_post_preserves_cache (st : ApiState) (did : String)
    (b : Bool) (n : Int) (e : PostError) (now : Nat) :
    (spa_set_power st did b (.error e) now).1 = st ∧
    (spa_set_heat st did b (.error e) now).1 = st ∧
    (spa_set_filter st did b (.error e) now).1 = st ∧
    (spa_set_locked st did b (.error e) now).1 = st ∧
    (spa_set_bubbles st did b (.error e) now).1 = st ∧
    (spa_set_target_temp st did n (.error e) now).1 = st ∧
    (pool_filter_set_power st did b (.error e) now).1 = st ∧
    (pool_filter_set_time st did n (.error e) now).1 = st := by
  refine ⟨?_, ?_, ?_, ?_, ?_, ?_, ?_, ?_⟩
  · cases h : lookupKey st.spaCache did <;> simp [spa_set_power, h]
  · cases h : lookupKey st.spaCache did <;> simp [spa_set_heat, h]
  · cases h : lookupKey st.spaCache did <;> simp [spa_set_filter, h]
  · cases h : lookupKey st.spaCache did <;> simp [spa_set_locked, h]
  · cases h : lookupKey st.spaCache did <;> simp [spa_set_bubbles, h]
  · cases h : lookupKey st.spaCache did <;> simp [spa_set_target_temp, h]
  · cases h : lookupKey st.poolCache did <;> simp [pool_filter_set_power, h]
  · cases h : lookupKey st.poolCache did <;> simp [pool_filter_set_time, h]

/-- C5: after a successful spa power-off command, the cached record for the
device has power, filter, heat and bubbles all false, regardless of the prior
values of those fields (and carries the command's wall-clock timestamp). -/
theorem c5_power_off_forces_all_off (st : ApiState) (did : String) (now : Nat)
    (c : SpaStatus) (h : lookupKey st.spaCache did = some c) :
    lookupKey (spa_set_power st did false (.ok ()) now).1.spaCache did =
      some { c with timestamp := now, spa_power := PyVal.bool false
                    filter_power := false, heat_power := false
                    wave_power := PyVal.bool false } := by
  simp [spa_set_power, h, lookupKey_setKey_self]

/-- Witness for C5 at a concrete cache whose record has everything on. -/
theorem c5_power_off_forces_all_off_witness :
    lookupKey (spa_set_power stSpa "d" false (.ok ()) 200).1.spaCache "d" =
      some { spa100 with timestamp := 200, spa_power := PyVal.bool false
                         filter_power := false, heat_power := false
                         wave_power := PyVal.bool false } :=
  c5_power_off_forces_all_off stSpa "d" 200 spa100 rfl

/-- C10: for a device of unknown type, the freshness arbitration never finds
a local timestamp (the unknown store is not consulted), so every poll with a
nonzero `updated_at` overwrites the stored diagnostic payload — even a poll
whose `updated_at` is strictly smaller than that of a previously stored
poll. -/
theorem c10_unknown_never_stale (st : ApiState) (did : String) (ts1 ts2 : Nat)
    (a1 a2 : Attrs) (h1 : lookupKey st.spaCache did = none)
    (h2 : lookupKey st.poolCache did = none) (ht1 : ts1 ≠ 0) (ht2 : ts2 ≠ 0)
    (_hlt : ts2 < ts1) :
    fetchDevice st did .unknown ts1 a1 =
      .ok { st with unknownStates := setKey did a1 st.unknownStates } ∧
    fetchDevice { st with unknownStates := setKey did a1 st.unknownStates }
        did .unknown ts2 a2 =
      .ok { st with unknownStates := setKey did a2 (setKey did a1 st.unknownStates) } ∧
    lookupKey (setKey did a2 (setKey did a1 st.unknownStates)) did = some a2 := by
  refine ⟨?_, ?_, lookupKey_setKey_self _ _ _⟩
  · simp [fetchDevice, localTimestamp, h1, h2, ht1]
  · simp [fetchDevice, localTimestamp, h1, h2, ht2]

/-- Witness for C10: two polls for unknown device `u`, the second older than
the first, both stored. -/
theorem c10_unknown_never_stale_witness :
    fetchDevice initialState "u" .unknown 10 [("x", PyVal.int 1)] =
      .ok { initialState with
            unknownStates := setKey "u" [("x", PyVal.int 1)] initialState.unknownStates } ∧
    fetchDevice { initialState with
                  unknownStates := setKey "u" [("x", PyVal.int 1)] initialState.unknownStates }
        "u" .unknown 3 [("y", PyVal.int 2)] =
      .ok { initialState with
            unknownStates :=
              setKey "u" [("y", PyVal.int 2)]
                (setKey "u" [("x", PyVal.int 1)] initialState.unknownStates) } ∧
    lookupKey (setKey "u" [("y", PyVal.int 2)]
        (setKey "u" [("x", PyVal.int 1)] initialState.unknownStates)) "u" =
      some [("y", PyVal.int 2)] :=
  c10_unknown_never_stale initialState "u" 10 3 [("x", PyVal.int 1)]
    [("y", PyVal.int 2)] rfl rfl (by decide) (by decide) (by decide)

/-- C1: for a device that already has a cached record, a poll with a nonzero
timestamp replaces the stored record iff the poll timestamp is greater than
or equal to the stored timestamp; a strictly smaller poll timestamp is
rejected as stale and leaves the whole state — hence a subsequent read —
unchanged.  Stated for a record cached in the spa cache (current and legacy
candidates) and for one cached in the pool filter cache. -/
theorem c1_merge_freshness_arbitration (st : ApiState) (did : String) (ts : Nat)
    (attrs : Attrs) (hts : ts ≠ 0) :
    (∀ dtype stored, lookupKey st.spaCache did = some stored →
      ts < stored.timestamp → fetchDevice st did dtype ts attrs = .ok st) ∧
    (∀ stored s, lookupKey st.spaCache did = some stored → stored.timestamp ≤ ts →
      decodeSpaCurrent ts attrs = .ok s →
      fetchDevice st did .airjet_spa ts attrs =
        .ok { st with spaCache := setKey did s st.spaCache }) ∧
    (∀ stored s, lookupKey st.spaCache did = some stored → stored.timestamp ≤ ts →
      decodeSpaLegacy ts attrs = .ok s →
      fetchDevice st did .airjet_v01 ts attrs =
        .ok { st with spaCache := setKey did s st.spaCache }) ∧
    (∀ dtype stored, lookupKey st.spaCache did = none →
      lookupKey st.poolCache did = some stored → ts < stored.timestamp →
      fetchDevice st did dtype ts attrs = .ok st) ∧
    (∀ stored p, lookupKey st.spaCache did = none →
      lookupKey st.poolCache did = some stored → stored.timestamp ≤ ts →
      decodePoolFilter ts attrs = .ok p →
      fetchDevice st did .pool_filter ts attrs =
        .ok { st with poolCache := setKey did p st.poolCache }) := by
  refine ⟨?_, ?_, ?_, ?_, ?_⟩
  · intro dtype stored hc hlt
    have hloc : localTimestamp st did = stored.timestamp := by
      simp [localTimestamp, hc]
    unfold fetchDevice
    rw [if_neg hts, hloc, if_pos hlt]
  · intro stored s hc hle hdec
    have hloc : localTimestamp st did = stored.timestamp := by
      simp [localTimestamp, hc]
    unfold fetchDevice
    rw [if_neg hts, hloc, if_neg (Nat.not_lt.mpr hle)]
    simp [hdec]
  · intro stored s hc hle hdec
    have hloc : localTimestamp st did = stored.timestamp := by
      simp [localTimestamp, hc]
    unfold fetchDevice
    rw [if_neg hts, hloc, if_neg (Nat.not_lt.mpr hle)]
    simp [hdec]
  · intro dtype stored hn hc hlt
    have hloc : localTimestamp st did = stored.timestamp := by
      simp [localTimestamp, hn, hc]
    unfold fetchDevice
    rw [if_neg hts, hloc, if_pos hlt]
  · intro stored p hn hc hle hdec
    have hloc : localTimestamp st did = stored.timestamp := by
      simp [localTimestamp, hn, hc]
    unfold fetchDevice
    rw [if_neg hts, hloc, if_neg (Nat.not_lt.mpr hle)]
    simp [hdec]

/-- Witness for C1: a stale poll at 50 against a record stamped 100 is
dropped for spa and pool caches; polls at 150 replace the spa record
(current and legacy payloads) and the pool record. -/
theorem c1_merge_freshness_arbitration_witness :
    fetchDevice stSpa "d" .airjet_spa 50 (currentAttrsWith fun n => if n = 3 then 1 else 0) =
      .ok stSpa ∧
    fetchDevice stSpa "d" .airjet_spa 150 (currentAttrsWith fun n => if n = 3 then 1 else 0) =
      .ok { stSpa with spaCache := setKey "d" spaErr3 stSpa.spaCache } ∧
    fetchDevice stSpa "d" .airjet_v01 150 (legacyAttrsWith fun _ => 0) =
      .ok { stSpa with spaCache := setKey "d" spaLegacy150 stSpa.spaCache } ∧
    fetchDevice stPool "p" .pool_filter 50 poolAttrs = .ok stPool ∧
    fetchDevice stPool "p" .pool_filter 150 poolAttrs =
      .ok { stPool with poolCache := setKey "p" pool150 stPool.poolCache } :=
  ⟨(c1_merge_freshness_arbitration stSpa "d" 50 _ (by decide)).1 .airjet_spa spa100
      rfl (by decide),
   (c1_merge_freshness_arbitration stSpa "d" 150 _ (by decide)).2.1 spa100 spaErr3
      rfl (by decide) rfl,
   (c1_merge_freshness_arbitration stSpa "d" 150 _ (by decide)).2.2.1 spa100 spaLegacy150
      rfl (by decide) rfl,
   (c1_merge_freshness_arbitration stPool "p" 50 poolAttrs (by decide)).2.2.2.1 .pool_filter
      pool100 rfl rfl (by decide),
   (c1_merge_freshness_arbitration stPool "p" 150 poolAttrs (by decide)).2.2.2.2 pool100
      pool150 rfl rfl (by decide) rfl⟩

/-- C6: when decoding a known-device-type payload fails on a missing required
key, nothing is stored for that device (the state handed to the rest of the
poll cycle is unchanged, so any previously cached record is retained) and the
cycle goes on to decode every remaining device. -/
theorem c6_decode_failure_is_isolated (st : ApiState) (did : String) (ts : Nat)
    (attrs : Attrs) (rest : List (String × BestwayDeviceType × Nat × Attrs))
    (k : String) :
    (decodeSpaCurrent ts attrs = .error (.missingKey k) →
      fetch_data st ((did, .airjet_spa, ts, attrs) :: rest) = fetch_data st rest) ∧
    (decodeSpaLegacy ts attrs = .error (.missingKey k) →
      fetch_data st ((did, .airjet_v01, ts, attrs) :: rest) = fetch_data st rest) ∧
    (decodePoolFilter ts attrs = .error (.missingKey k) →
      fetch_data st ((did, .pool_filter, ts, attrs) :: rest) = fetch_data st rest) := by
  have step : ∀ dtype, fetchDevice st did dtype ts attrs = .ok st →
      fetch_data st ((did, dtype, ts, attrs) :: rest) = fetch_data st rest := by
    intro dtype hfd
    show (fetchDevice st did dtype ts attrs >>= fun st2 => fetch_data st2 rest) =
      fetch_data st rest
    rw [hfd, except_bind_ok]
  refine ⟨fun h => step _ ?_, fun h => step _ ?_, fun h => step _ ?_⟩ <;>
    · unfold fetchDevice
      by_cases h0 : ts = 0
      · rw [if_pos h0]
      · rw [if_neg h0]
        by_cases hlt : ts < localTimestamp st did
        · rw [if_pos hlt]
        · rw [if_neg hlt]
          simp [h]

/-- Witness for C6: an empty payload for each known device type fails on its
first required key and the poll cycle is unaffected. -/
theorem c6_decode_failure_is_isolated_witness :
    fetch_data stSpa [("d", .airjet_spa, 150, [])] = fetch_data stSpa [] ∧
    fetch_data stSpa [("d", .airjet_v01, 150, [])] = fetch_data stSpa [] ∧
    fetch_data stPool [("p", .pool_filter, 150, [])] = fetch_data stPool [] :=
  ⟨(c6_decode_failure_is_isolated stSpa "d" 150 [] [] "system_err1").1 rfl,
   (c6_decode_failure_is_isolated stSpa "d" 150 [] [] "E01").2.1 rfl,
   (c6_decode_failure_is_isolated stPool "p" 150 [] [] "filter").2.2 rfl⟩

/-- C9 is refuted at the unknown-device variant: the unknown store keeps only
the serialized attribute payload, so two polls with distinct timestamps and
the same payload produce identical stored states — the stored record cannot
carry the timestamp of the poll that produced it. -/
theorem c9_counterexample :
    fetchDevice initialState "d" .unknown 5 [] =
      fetchDevice initialState "d" .unknown 7 [] ∧ (5 : Nat) ≠ 7 :=
  ⟨rfl, by decide⟩

/-- C9 (amended): the spa and pool filter status variants each carry the
timestamp of the poll that produced them; the unknown-device variant is
stored as the opaque serialized payload alone, without any timestamp, so the
stored unknown state is independent of the poll timestamp and unknown
statuses are not comparable by timestamp. -/
theorem c9_amended_timestamp_carrying (ts : Nat) (attrs : Attrs) :
    (∀ s, decodeSpaCurrent ts attrs = .ok s → s.timestamp = ts) ∧
    (∀ s, decodeSpaLegacy ts attrs = .ok s → s.timestamp = ts) ∧
    (∀ p, decodePoolFilter ts attrs = .ok p → p.timestamp = ts) ∧
    (∀ st did ts2, ts ≠ 0 → ts2 ≠ 0 →
      lookupKey st.spaCache did = none → lookupKey st.poolCache did = none →
      fetchDevice st did .unknown ts attrs = fetchDevice st did .unknown ts2 attrs) := by
  refine ⟨fun s h => (decodeSpaCurrent_ok_inv h).1,
          fun s h => (decodeSpaLegacy_ok_inv h).1,
          fun p h => decodePoolFilter_ok_inv h, ?_⟩
  intro st did ts2 h1 h2 hn1 hn2
  simp [fetchDevice, localTimestamp, hn1, hn2, h1, h2]

/-- Witness for C9 (amended): a concrete pool decode carries its poll
timestamp, and the unknown store is timestamp-independent. -/
theorem c9_amended_timestamp_carrying_witness :
    pool150.timestamp = 150 ∧
    fetchDevice initialState "u" .unknown 5 [] =
      fetchDevice initialState "u" .unknown 7 [] :=
  ⟨(c9_amended_timestamp_carrying 150 poolAttrs).2.2.1 pool150 rfl,
   (c9_amended_timestamp_carrying 5 []).2.2.2 initialState "u" 7
      (by decide) (by decide) rfl rfl⟩

/-- A legacy payload complete except that the `E01` error-flag key is
absent. -/
def legacyAttrsNoE01 : Attrs :=
  ((List.range' 2 30).map fun n => (errKeyLegacy n, PyVal.int 0)) ++ legacyBaseAttrs

/-- C3 is refuted: for the legacy firmware family a missing individual
error-flag key is not tolerated as inactive — a payload that is complete
apart from `E01` is a hard decode failure (`KeyError`), the same strictness
as the current family. -/
theorem c3_counterexample :
    decodeSpaLegacy 100 legacyAttrsNoE01 = .error (.missingKey "E01") := rfl

/-- C3 (amended): both firmware families treat a missing individual
error-flag key as a hard decode failure — a legacy decode succeeds only when
every `E01..E31` key is present, and a current decode only when every
`system_err1..system_err9` key is present. -/
theorem c3_amended_both_families_strict (ts : Nat) (attrs : Attrs) :
    (∀ s, decodeSpaLegacy ts attrs = .ok s →
      ∀ n ∈ List.range' 1 31, (lookupKey attrs (errKeyLegacy n)).isSome = true) ∧
    (∀ s, decodeSpaCurrent ts attrs = .ok s →
      ∀ n ∈ List.range' 1 9, (lookupKey attrs (errKeyCurrent n)).isSome = true) :=
  ⟨fun _ h => scanErrorFlags_keys (decodeSpaLegacy_ok_inv h).2,
   fun _ h => scanErrorFlags_keys (decodeSpaCurrent_ok_inv h).2⟩

/-- Witness for C3 (amended): concrete successful decodes expose the presence
of the last flag key of each family. -/
theorem c3_amended_both_families_strict_witness :
    (lookupKey (legacyAttrsWith fun _ => 0) (errKeyLegacy 31)).isSome = true ∧
    (lookupKey (currentAttrsWith fun n => if n = 3 then 1 else 0)
      (errKeyCurrent 9)).isSome = true :=
  ⟨(c3_amended_both_families_strict 150 (legacyAttrsWith fun _ => 0)).1
      spaLegacy150 rfl 31 (by decide),
   (c3_amended_both_families_strict 150 (currentAttrsWith fun n => if n = 3 then 1 else 0)).2
      spaErr3 rfl 9 (by decide)⟩

/-- A complete legacy payload whose `E01` flag has the nonzero value `2`. -/
def legacyAttrsE01Two : Attrs :=
  legacyAttrsWith fun n => if n = 1 then 2 else 0

/-- C7 is refuted: a legacy error-flag value of `2` — nonzero but not `1` —
is not treated as active: the payload decodes with an empty error list
instead of `[1]`. -/
theorem c7_counterexample :
    lookupKey legacyAttrsE01Two (errKeyLegacy 1) = some (PyVal.int 2) ∧
    (decodeSpaLegacy 100 legacyAttrsE01Two).toOption.map SpaStatus.errors =
      some [] :=
  ⟨rfl, rfl⟩

/-- C7 (amended): a legacy error-flag attribute is active iff its value
compares equal to `1` under Python `==` (integer `1` or `True`); any other
value, including nonzero integers such as `2`, is inactive. -/
theorem c7_amended_active_iff_eq_one (ts : Nat) (attrs : Attrs) (s : SpaStatus)
    (h : decodeSpaLegacy ts attrs = .ok s) (n : Nat) :
    n ∈ s.errors ↔ n ∈ List.range' 1 31 ∧
      ∃ v, lookupKey attrs (errKeyLegacy n) = some v ∧ pyEqInt v 1 = true :=
  scanErrorFlags_mem_iff (decodeSpaLegacy_ok_inv h).2 n

/-- Witness for C7 (amended): flag `E05 = 1` is decoded as active. -/
theorem c7_amended_active_iff_eq_one_witness :
    5 ∈ spaLegacyE05.errors :=
  (c7_amended_active_iff_eq_one 100 (legacyAttrsWith fun n => if n = 5 then 1 else 0)
      spaLegacyE05 rfl 5).mpr ⟨by decide, PyVal.int 1, rfl, rfl⟩

/-- C8: the error list of every successfully decoded current-firmware spa
payload is strictly ascending (hence duplicate-free); in particular
`system_err3 = 1` alone yields `[3]`, and `system_err1 = system_err9 = 1`
yields `[1, 9]`. -/
theorem c8_current_errors_sorted :
    (∀ ts attrs s, decodeSpaCurrent ts attrs = .ok s →
      List.Sorted (· < ·) s.errors ∧ s.errors.Nodup) ∧
    (decodeSpaCurrent 100 (currentAttrsWith fun n => if n = 3 then 1 else 0)).toOption.map
      SpaStatus.errors = some [3] ∧
    (decodeSpaCurrent 100 (currentAttrsWith fun n => if n = 1 ∨ n = 9 then 1 else 0)).toOption.map
      SpaStatus.errors = some [1, 9] := by
  refine ⟨fun ts attrs s h => ?_, rfl, rfl⟩
  have hsub := scanErrorFlags_sublist (decodeSpaCurrent_ok_inv h).2
  exact ⟨List.Pairwise.sublist hsub (by decide),
         List.Nodup.sublist hsub (by decide)⟩

/-- Witness for C8: the two-flag decode is sorted and duplicate-free. -/
theorem c8_current_errors_sorted_witness :
    List.Sorted (· < ·) spaErr19.errors ∧ spaErr19.errors.Nodup :=
  c8_current_errors_sorted.1 100
    (currentAttrsWith fun n => if n = 1 ∨ n = 9 then 1 else 0) spaErr19 rfl

end Bestway
